import Mathlib

/-!
Verification of the tee-n-splice repository: a non-blocking zero-copy
transfer layer built on the tee and splice syscalls.

The development shallowly embeds the three source modules:

* async_utils.py — the retry engine (retry_while_errno,
  run_and_retry_while_ewouldblock) and the eventlet adapters tee / splice
  plus make_non_blocking.  A callable that may raise OSError is modelled
  by the trace of outcomes of its successive invocations: a
  List (Except Nat A), where Except.error e stands for an OSError whose
  errno field is e, and Except.ok v for a normal return of v.  A retry
  loop over such a callable is a function on the trace; the Option result
  is none when the trace is too short to make the loop return (the loop
  would keep invoking the callable), and some r when the loop finishes
  with outcome r.
* bindings.py — the ctypes bindings.  The errcheck hooks are pure
  functions of the raw return value, the errno and the offset pointer
  arguments; the C library calls are abstracted by explicit kernel
  parameters so the wrapper logic (flag folding, descriptor resolution,
  offset pointer wiring, error checking) can be stated and proved on its
  own.  The splice hook reads the contents attribute of a non-None
  offset argument, but that argument is a ctypes.byref CArgObject with
  no such attribute, so the success path with a supplied offset raises
  AttributeError; the embedding models that fault.
* pipes.py — pipe capacity utilities, with the fcntl F_SETPIPE_SZ kernel
  behaviour modelled from the spec (the kernel is an external
  collaborator, not part of the sources).
-/

/-- Linux errno value of EPERM, operation not permitted. -/
def EPERM : Nat := 1

/-- Linux errno value of EINTR, interrupted system call. -/
def EINTR : Nat := 4

/-- Linux errno value of EWOULDBLOCK (equal to EAGAIN on Linux). -/
def EWOULDBLOCK : Nat := 11

/-- Outcome of one invocation of a callable that may raise OSError:
Except.error e is an OSError with errno e, Except.ok v a normal return. -/
abbrev Outcome (α : Type) : Type := Except Nat α

/-- Embedding of async_utils.retry_while_errno (src/async_utils.py lines
13-33) over the trace of outcomes of the successive invocations of the
action.  The loop body runs the action once; on Except.ok v it returns v,
on an error whose errno is in errnos it loops, and on any other error it
re-raises.  The result is none when the trace ends before the loop does. -/
def retry_while_errno (errnos : List Nat) : List (Outcome α) → Option (Outcome α)
  | [] => none
  | Except.ok v :: _ => some (Except.ok v)
  | Except.error e :: rest =>
      if e ∈ errnos then retry_while_errno errnos rest
      else some (Except.error e)

/-- Trace of the inner closure wait_and_do of
run_and_retry_while_ewouldblock (src/async_utils.py lines 57-59): each
invocation first calls wait and, when wait returns normally, runs the
action.  A wait outcome of some e is an OSError with errno e raised by
wait itself (the action is then not invoked and its trace not consumed);
none is a normal return of wait. -/
def wait_and_do : List (Option Nat) → List (Outcome α) → List (Outcome α)
  | [], _ => []
  | some e :: ws, as => Except.error e :: wait_and_do ws as
  | none :: _, [] => []
  | none :: ws, a :: as => a :: wait_and_do ws as

/-- Embedding of async_utils.run_and_retry_while_ewouldblock
(src/async_utils.py lines 35-61): run the action once and return its
result; when it raises an OSError whose errno is not EWOULDBLOCK,
re-raise it; when the errno is EWOULDBLOCK, run
retry_while_errno(wait_and_do, [EWOULDBLOCK]).  ws is the trace of the
outcomes of the successive calls to wait, as the trace of the action. -/
def run_and_retry_while_ewouldblock (ws : List (Option Nat)) :
    List (Outcome α) → Option (Outcome α)
  | [] => none
  | Except.ok v :: _ => some (Except.ok v)
  | Except.error e :: rest =>
      if e = EWOULDBLOCK then retry_while_errno [EWOULDBLOCK] (wait_and_do ws rest)
      else some (Except.error e)

example : retry_while_errno [EINTR]
    ([Except.error EINTR, Except.error EINTR, Except.ok 7] : List (Outcome Nat))
    = some (Except.ok 7) := rfl

example : retry_while_errno [EINTR]
    ([Except.error EINTR, Except.error EPERM, Except.ok 7] : List (Outcome Nat))
    = some (Except.error EPERM) := rfl

example : run_and_retry_while_ewouldblock [none, none]
    ([Except.error EWOULDBLOCK, Except.error EWOULDBLOCK, Except.ok 3] : List (Outcome Nat))
    = some (Except.ok 3) := rfl

example : run_and_retry_while_ewouldblock [none]
    ([Except.error EWOULDBLOCK, Except.error EINTR, Except.ok 3] : List (Outcome Nat))
    = some (Except.error EINTR) := rfl

example : run_and_retry_while_ewouldblock [some EWOULDBLOCK, none]
    ([Except.error EWOULDBLOCK, Except.ok 3] : List (Outcome Nat))
    = some (Except.ok 3) := rfl

example : run_and_retry_while_ewouldblock [some EPERM, none]
    ([Except.error EWOULDBLOCK, Except.ok 3] : List (Outcome Nat))
    = some (Except.error EPERM) := rfl

/-!
Instrumented model of the eventlet adapters async_utils.tee and
async_utils.splice (src/async_utils.py lines 63-91).  Both build the same
assembly: the action is retry_while_errno(raw_call, [EINTR]) around the
raw binding, the wait step is trampoline(fd_in, read=True) followed by
trampoline(fd_out, write=True), and the assembly is passed to
run_and_retry_while_ewouldblock.  The adapters differ only in the raw
call and its result type, so the assembly is modelled once, generically
in the result type, over the trace of outcomes of the raw binding calls.
The model additionally records the externally observable events: each
invocation of the raw binding, and the scheduler interactions of the
wait step.
-/

/-- Externally observable events of one adapter run: an invocation of the
raw binding, the registration of a readiness condition with the
scheduler, and a suspension of the calling unit of work. -/
inductive Event : Type where
  | register_read : Nat → Event
  | register_write : Nat → Event
  | suspend : Event
  | syscall : Event
deriving DecidableEq, BEq

/-- Modelled from the spec: the external scheduler collaborator
(eventlet.hubs.trampoline) exposes a primitive that suspends the current
unit of work until descriptor fd is ready for reading (isRead = true) or
writing (isRead = false).  One call registers interest in that single
readiness condition and then suspends until it fires. -/
def trampolineEvents (fd : Nat) (isRead : Bool) : List Event :=
  if isRead then [Event.register_read fd, Event.suspend]
  else [Event.register_write fd, Event.suspend]

/-- Events of the wait closure of the adapters (src/async_utils.py lines
71-73 and 87-89): trampoline(fd_in, read=True) then
trampoline(fd_out, write=True). -/
def waitEvents (fd_in fd_out : Nat) : List Event :=
  trampolineEvents fd_in true ++ trampolineEvents fd_out false

/-- Instrumented run of the adapter action
retry_while_errno(raw_call, [EINTR]) over the trace raws of raw binding
outcomes: returns the action outcome, the unconsumed part of the trace
and one Event.syscall per raw invocation made; none when the trace is too
short. -/
def actionRun : List (Outcome α) → Option (Outcome α × List (Outcome α) × List Event)
  | [] => none
  | Except.ok v :: rest => some (Except.ok v, rest, [Event.syscall])
  | Except.error e :: rest =>
      if e ∈ [EINTR] then
        match actionRun rest with
        | none => none
        | some (res, rest2, evs) => some (res, rest2, Event.syscall :: evs)
      else some (Except.error e, rest, [Event.syscall])

/-- Fuelled instrumented run of the whole adapter assembly
run_and_retry_while_ewouldblock(wait, action): run the action; on
success or a non-EWOULDBLOCK error stop with its outcome; on EWOULDBLOCK
emit the wait events and run the action again.  The fuel bounds the
number of would-block cycles; the trace of raw outcomes shrinks at every
cycle, so raws.length cycles always suffice. -/
def adapterRunF (fd_in fd_out : Nat) :
    Nat → List (Outcome α) → List Event × Option (Outcome α)
  | fuel, raws =>
    match actionRun raws with
    | none => ([], none)
    | some (Except.ok v, _, evs) => (evs, some (Except.ok v))
    | some (Except.error e, rest, evs) =>
        if e = EWOULDBLOCK then
          match fuel with
          | 0 => (evs, none)
          | fuel' + 1 =>
              let p := adapterRunF fd_in fd_out fuel' rest
              (evs ++ (waitEvents fd_in fd_out ++ p.1), p.2)
        else (evs, some (Except.error e))

/-- Instrumented run of the adapter assembly with enough fuel for any
trace. -/
def adapterRun (fd_in fd_out : Nat) (raws : List (Outcome α)) :
    List Event × Option (Outcome α) :=
  adapterRunF fd_in fd_out raws.length raws

/-- Embedding of async_utils.tee (src/async_utils.py lines 63-75) over
the trace of outcomes of the raw bindings.tee calls. -/
def async_tee_run (fd_in fd_out : Nat) (raws : List (Outcome Int)) :
    List Event × Option (Outcome Int) :=
  adapterRun fd_in fd_out raws

/-- Embedding of async_utils.splice (src/async_utils.py lines 78-91) over
the trace of outcomes of the raw bindings.splice calls, whose results are
triples of byte count and the two optional output offsets. -/
def async_splice_run (fd_in fd_out : Nat)
    (raws : List (Outcome (Int × Option Nat × Option Nat))) :
    List Event × Option (Outcome (Int × Option Nat × Option Nat)) :=
  adapterRun fd_in fd_out raws

example : async_tee_run 0 1 [Except.error EINTR, Except.error EINTR, Except.ok 9]
    = ([Event.syscall, Event.syscall, Event.syscall], some (Except.ok 9)) := rfl

example : async_tee_run 0 1 [Except.error EWOULDBLOCK, Except.ok 5]
    = ([Event.syscall,
        Event.register_read 0, Event.suspend, Event.register_write 1, Event.suspend,
        Event.syscall], some (Except.ok 5)) := rfl

example : async_tee_run 0 1 [Except.error EWOULDBLOCK, Except.error EINTR, Except.ok 5]
    = ([Event.syscall,
        Event.register_read 0, Event.suspend, Event.register_write 1, Event.suspend,
        Event.syscall, Event.syscall], some (Except.ok 5)) := rfl

example : async_tee_run 0 1 [Except.error EWOULDBLOCK, Except.error EPERM]
    = ([Event.syscall,
        Event.register_read 0, Event.suspend, Event.register_write 1, Event.suspend,
        Event.syscall], some (Except.error EPERM)) := rfl

/-!
Embedding of bindings.py.  The ctypes argument conversions are made
explicit: c_int is a wrap into the signed 32-bit range, c_uint and
c_size_t / c_uint64 are reductions modulo 2^32 and 2^64.  The C library
functions themselves are abstract kernel parameters: a KernelTee or
KernelSplice maps the converted arguments to a raw ssize_t return value,
the errno left by the call, and — for splice — the values the call stores
through the two loff_t pointers.  The errcheck hooks installed in
Tee.__init__ and Splice.__init__ are pure functions of those data.
-/

/-- Conversion of an integer to ctypes.c_int: wrap into the signed 32-bit
range. -/
def toCInt (n : Int) : Int := (n + 2 ^ 31) % 2 ^ 32 - 2 ^ 31

/-- A file descriptor argument as accepted by Tee.__call__ and
Splice.__call__: either a plain integer, or a file-like object whose
fileno method returns an integer. -/
inductive Fd : Type where
  | int : Int → Fd
  | obj : Int → Fd

/-- Descriptor resolution getattr(fd, "fileno", lambda: fd)() followed by
the c_int conversion (src/bindings.py lines 61-62 and 134-135). -/
def resolveFd : Fd → Int
  | Fd.int n => toCInt n
  | Fd.obj n => toCInt n

/-- A flags argument as accepted by Tee.__call__ and Splice.__call__:
either a plain integer, or a collection of flag constants. -/
inductive TransferFlags : Type where
  | int : Nat → TransferFlags
  | set : List Nat → TransferFlags

/-- Named flag constants exposed on the Splice object
(src/bindings.py lines 74-77). -/
def SPLICE_F_MOVE : Nat := 1

/-- See SPLICE_F_MOVE. -/
def SPLICE_F_NONBLOCK : Nat := 2

/-- See SPLICE_F_MOVE. -/
def SPLICE_F_MORE : Nat := 4

/-- See SPLICE_F_MOVE. -/
def SPLICE_F_GIFT : Nat := 8

/-- Flag resolution of Tee.__call__ and Splice.__call__
(src/bindings.py lines 56-59 and 129-132): an integer is passed to c_uint
directly, any other value is folded with reduce(lambda a, b: a | b,
flags, 0) first. -/
def resolveFlags : TransferFlags → Nat
  | TransferFlags.int n => n % 2 ^ 32
  | TransferFlags.set l => (l.foldl (fun a b => a ||| b) 0) % 2 ^ 32

/-- A Python exception as raised by the errcheck hooks: an OSError
carrying the errno and the os.strerror message, or the AttributeError
raised by an attribute lookup on an object that lacks the attribute. -/
inductive PyErr : Type where
  | osError : Nat → String → PyErr
  | attributeError : PyErr
deriving DecidableEq

/-- The errcheck hook installed by Tee.__init__
(src/bindings.py lines 34-42): a raw return value of exactly -1 raises
OSError(errno, strerror(errno)); any other value is returned unchanged.
strerror abstracts os.strerror. -/
def tee_errcheck (strerror : Nat → String) (result : Int) (errno_ : Nat) :
    Except PyErr Int :=
  if result = -1 then Except.error (PyErr.osError errno_ (strerror errno_))
  else Except.ok result

/-- The errcheck hook installed by Splice.__init__
(src/bindings.py lines 95-109): a raw return value of exactly -1 raises
OSError(errno, strerror(errno)).  On any other value the hook builds the
result tuple; for each offset argument it evaluates off.contents when the
argument is not None — but that argument is the ctypes.byref CArgObject
built in Splice.__call__, and a CArgObject has no contents attribute, so
the lookup raises AttributeError.  The tuple expression is evaluated left
to right, the off_in side first.  Only when both offset arguments are
None (null pointers) does the hook return (result, None, None).  off_in
and off_out here are the pointee values after the call, none standing for
a null pointer; on the non-(-1) path those pointee values are never
readable. -/
def splice_errcheck (strerror : Nat → String) (result : Int) (errno_ : Nat)
    (off_in off_out : Option Nat) :
    Except PyErr (Int × Option Nat × Option Nat) :=
  if result = -1 then Except.error (PyErr.osError errno_ (strerror errno_))
  else
    match off_in, off_out with
    | some _, _ => Except.error PyErr.attributeError
    | none, some _ => Except.error PyErr.attributeError
    | none, none => Except.ok (result, none, none)

/-- The C tee function as seen through its ctypes signature: from the
converted arguments (fd_in, fd_out, len, flags) to the raw ssize_t
return value and the errno left behind. -/
structure KernelTee : Type where
  run : Int → Int → Nat → Nat → Int × Nat

/-- The C splice function as seen through its ctypes signature: from the
converted arguments (fd_in, off_in pointee or none for a null pointer,
fd_out, off_out pointee or none, len, flags) to the raw ssize_t return
value, the errno left behind, and the two pointee values after the call
(meaningful only for the non-null pointers). -/
structure KernelSplice : Type where
  run : Int → Option Nat → Int → Option Nat → Nat → Nat → Int × Nat × Nat × Nat

/-- Embedding of Tee.__call__ (src/bindings.py lines 46-64): resolve the
flags and the descriptors, convert the length to c_size_t, call the C
function and pass its raw result through the errcheck hook. -/
def Tee_call (k : KernelTee) (strerror : Nat → String)
    (fd_in fd_out : Fd) (len_ : Nat) (flags : TransferFlags) :
    Except PyErr Int :=
  let r := k.run (resolveFd fd_in) (resolveFd fd_out) (len_ % 2 ^ 64) (resolveFlags flags)
  tee_errcheck strerror r.1 r.2

/-- Embedding of Splice.__call__ (src/bindings.py lines 113-144): resolve
the flags and the descriptors, build a loff_t pointer for each supplied
offset (null for None), call the C function and pass its raw result and
the pointees through the errcheck hook.  Option.map wires pointer
non-nullness: side i of the errcheck input is the post-call pointee when
the caller supplied an offset on side i, and none otherwise. -/
def Splice_call (k : KernelSplice) (strerror : Nat → String)
    (fd_in : Fd) (off_in : Option Nat) (fd_out : Fd) (off_out : Option Nat)
    (len_ : Nat) (flags : TransferFlags) :
    Except PyErr (Int × Option Nat × Option Nat) :=
  let r := k.run (resolveFd fd_in) (off_in.map (· % 2 ^ 64))
    (resolveFd fd_out) (off_out.map (· % 2 ^ 64)) (len_ % 2 ^ 64) (resolveFlags flags)
  splice_errcheck strerror r.1 r.2.1
    (off_in.map (fun _ => r.2.2.1)) (off_out.map (fun _ => r.2.2.2))

/-!
Embedding of pipes.py and async_utils.make_non_blocking.  The fcntl calls
act on kernel state, which is not part of the sources; their behaviour on
the pipe-size commands is modelled from the spec.
-/

/-- The fcntl F_SETPIPE_SZ command value (src/pipes.py line 5). -/
def F_SETPIPE_SZ : Nat := 1031

/-- The fcntl F_GETPIPE_SZ command value (src/pipes.py line 6). -/
def F_GETPIPE_SZ : Nat := 1032

/-- Whitespace as recognised by the Python str.strip method on ASCII
text. -/
def pyIsSpace (c : Char) : Bool :=
  c = ' ' || c = '\t' || c = '\n' || c = '\r' || c = '\x0b' || c = '\x0c'

/-- The Python str.strip method on the characters of the text: drop
whitespace from both ends. -/
def pyStrip (s : List Char) : List Char :=
  ((s.dropWhile pyIsSpace).reverse.dropWhile pyIsSpace).reverse

/-- Decimal value of one digit character, none on a non-digit. -/
def digitVal? (c : Char) : Option Nat :=
  if c.isDigit then some (c.toNat - 48) else none

/-- The Python int constructor on a string of decimal digits: the parsed
value, or none (a raised ValueError) when the text is empty or holds a
non-digit. -/
def parseDecimal? (s : List Char) : Option Nat :=
  if s = [] then none
  else s.foldl (fun acc c =>
    match acc, digitVal? c with
    | some a, some d => some (a * 10 + d)
    | _, _ => none) (some 0)

/-- Embedding of pipes.read_pipe_max_size (src/pipes.py lines 10-15)
applied to the characters of the text read from the well-known system
path: int(data.strip()), none standing for a raised ValueError when the
stripped text is not a decimal numeral. -/
def read_pipe_max_size (data : List Char) : Option Nat :=
  parseDecimal? (pyStrip data)

/-- Modelled from the spec: the kernel state consulted by the fcntl pipe
capacity commands — the page granularity the kernel rounds up to, the
system-wide ceiling (the integer held by /proc/sys/fs/pipe-max-size), the
privilege of the caller, and the current capacity of the pipe. -/
structure PipeKernel : Type where
  pageSize : Nat
  ceiling : Nat
  privileged : Bool
  current : Nat

/-- Rounding up of a requested size to the next multiple of the page
granularity. -/
def roundUpTo (page size : Nat) : Nat :=
  ((size + page - 1) / page) * page

/-- Modelled from the spec: the fcntl F_SETPIPE_SZ kernel behaviour —
a request above the system ceiling by an unprivileged caller fails with
EPERM; otherwise the kernel applies the size rounded up to a page
multiple and returns the applied size. -/
def fcntl_setpipe_sz (k : PipeKernel) (size : Nat) : Except Nat Nat :=
  if k.ceiling < size && !k.privileged then Except.error EPERM
  else Except.ok (roundUpTo k.pageSize size)

/-- Embedding of pipes.get_pipe_size (src/pipes.py lines 17-23):
fcntl(fd, F_GETPIPE_SZ) returns the current capacity held by the
kernel. -/
def get_pipe_size (k : PipeKernel) : Nat :=
  k.current

/-- Embedding of pipes.set_pipe_size (src/pipes.py lines 25-38): a plain
pass-through of fcntl(fd, F_SETPIPE_SZ, size). -/
def set_pipe_size (k : PipeKernel) (size : Nat) : Except Nat Nat :=
  fcntl_setpipe_sz k size

/-- The os.O_NONBLOCK status flag bit (bit 11 on Linux). -/
def O_NONBLOCK : Nat := 2048

/-- One fcntl descriptor-flags operation, for recording the operations
make_non_blocking performs: a F_GETFL query or a F_SETFL update with the
given new flags. -/
inductive FcntlOp : Type where
  | getfl : FcntlOp
  | setfl : Nat → FcntlOp
deriving DecidableEq, BEq

/-- Embedding of async_utils.make_non_blocking
(src/async_utils.py lines 93-97) on the status flags of the descriptor:
flags = fcntl(fd, F_GETFL) then fcntl(fd, F_SETFL, flags | os.O_NONBLOCK).
The result is the new flag value together with the list of fcntl
operations performed, in order. -/
def make_non_blocking (cur : Nat) : Nat × List FcntlOp :=
  let flags := cur
  (flags ||| O_NONBLOCK, [FcntlOp.getfl, FcntlOp.setfl (flags ||| O_NONBLOCK)])

example : resolveFlags (TransferFlags.set [SPLICE_F_MOVE, SPLICE_F_MORE]) = 5 := rfl

example : resolveFlags (TransferFlags.set []) = 0 := rfl

example : tee_errcheck (fun _ => "err") (-1) 9 = Except.error (PyErr.osError 9 "err") := rfl

example : tee_errcheck (fun _ => "err") 0 9 = Except.ok 0 := rfl

example : splice_errcheck (fun _ => "err") (-1) 9 (some 30) none
    = Except.error (PyErr.osError 9 "err") := rfl

example : splice_errcheck (fun _ => "err") 12 9 (some 30) none
    = Except.error PyErr.attributeError := rfl

example : splice_errcheck (fun _ => "err") 12 9 none (some 40)
    = Except.error PyErr.attributeError := rfl

example : splice_errcheck (fun _ => "err") 12 9 none none
    = Except.ok (12, none, none) := rfl

example : read_pipe_max_size (" 1048576\n".toList) = some 1048576 := by decide

example : set_pipe_size ⟨4096, 1048576, false, 65536⟩ 1048577 = Except.error EPERM := rfl

example : set_pipe_size ⟨4096, 1048576, false, 65536⟩ 5000 = Except.ok 8192 := rfl

example : make_non_blocking 2 = (2050, [FcntlOp.getfl, FcntlOp.setfl 2050]) := rfl

/-!
Theorems.  Helper lemmas come first; one theorem per claim follows, each
with its claim id in the doc comment.
-/

theorem retry_while_errno_append (errnos : List Nat) (pre rest : List (Outcome α))
    (hpre : ∀ x ∈ pre, ∃ e, x = Except.error e ∧ e ∈ errnos) :
    retry_while_errno errnos (pre ++ rest) = retry_while_errno errnos rest := by
  induction pre with
  | nil => rfl
  | cons x pre ih =>
      obtain ⟨e, hx, he⟩ := hpre x (by simp)
      subst hx
      simp only [List.cons_append, retry_while_errno, if_pos he]
      exact ih (fun y hy => hpre y (by simp [hy]))

theorem retry_while_errno_terminal (errnos : List Nat) (t : Outcome α)
    (rest : List (Outcome α)) (ht : ∀ e, t = Except.error e → e ∉ errnos) :
    retry_while_errno errnos (t :: rest) = some t := by
  cases t with
  | ok v => rfl
  | error e => simp [retry_while_errno, ht e rfl]

/-- C2: retry_while_errno repeatedly invokes the action and returns the
result of the first successful invocation; an OSError whose errno is in
errnos causes re-invocation, with no bound on the number of attempts
(the recoverable run pre is arbitrarily long); an OSError whose errno is
not in errnos propagates unchanged. -/
theorem retry_while_errno_contract (α : Type) (errnos : List Nat)
    (pre rest : List (Outcome α)) (t : Outcome α)
    (hpre : ∀ x ∈ pre, ∃ e, x = Except.error e ∧ e ∈ errnos)
    (ht : ∀ e, t = Except.error e → e ∉ errnos) :
    retry_while_errno errnos (pre ++ t :: rest) = some t := by
  rw [retry_while_errno_append errnos pre _ hpre]
  exact retry_while_errno_terminal errnos t rest ht

theorem retry_while_errno_contract_witness :
    retry_while_errno [EINTR]
      ([Except.error EINTR, Except.error EINTR, Except.ok 7] : List (Outcome Nat))
      = some (Except.ok 7) :=
  retry_while_errno_contract Nat [EINTR]
    [Except.error EINTR, Except.error EINTR] [] (Except.ok 7)
    (by intro x hx; fin_cases hx <;> exact ⟨EINTR, rfl, by decide⟩)
    (by intro e he; cases he)

theorem wait_and_do_replicate_none (m : Nat) (as : List (Outcome α)) :
    wait_and_do (List.replicate m none) as = as.take m := by
  induction m generalizing as with
  | zero => rfl
  | succ m ih =>
      cases as with
      | nil => simp [List.replicate_succ, wait_and_do]
      | cons a as => simp [List.replicate_succ, wait_and_do, ih]

/-- C1: run_and_retry_while_ewouldblock invokes the action once and
returns its result when it succeeds; when that invocation raises an
OSError with errno EWOULDBLOCK it calls wait and re-invokes the action,
repeating the wait-then-retry cycle for EWOULDBLOCK failures exactly (the
run of k further EWOULDBLOCK failures is arbitrary); any other error
raised by the action — on the first invocation or, like EINTR, after a
wait — propagates unchanged. -/
theorem run_and_retry_while_ewouldblock_contract :
    (∀ (α : Type) (ws : List (Option Nat)) (v : α) (rest : List (Outcome α)),
      run_and_retry_while_ewouldblock ws (Except.ok v :: rest) = some (Except.ok v)) ∧
    (∀ (α : Type) (ws : List (Option Nat)) (e : Nat) (rest : List (Outcome α)),
      e ≠ EWOULDBLOCK →
      run_and_retry_while_ewouldblock ws (Except.error e :: rest)
        = some (Except.error e)) ∧
    (∀ (α : Type) (k : Nat) (t : Outcome α) (rest : List (Outcome α)),
      (∀ e, t = Except.error e → e ≠ EWOULDBLOCK) →
      run_and_retry_while_ewouldblock (List.replicate (k + 1) none)
        (Except.error EWOULDBLOCK ::
          (List.replicate k (Except.error EWOULDBLOCK) ++ t :: rest))
        = some t) := by
  refine ⟨fun α ws v rest => rfl, fun α ws e rest he => ?_, fun α k t rest ht => ?_⟩
  · simp [run_and_retry_while_ewouldblock, he]
  · have hlen : (List.replicate k (Except.error EWOULDBLOCK : Outcome α)).length = k :=
      List.length_replicate k _
    simp only [run_and_retry_while_ewouldblock, if_pos rfl,
      wait_and_do_replicate_none]
    rw [show k + 1 = (List.replicate k (Except.error EWOULDBLOCK : Outcome α)).length + 1
        from by rw [hlen],
      List.take_append]
    rw [retry_while_errno_append [EWOULDBLOCK] _ _
      (fun x hx => ⟨EWOULDBLOCK, (List.eq_of_mem_replicate hx), by decide⟩)]
    cases t with
    | ok v => rfl
    | error e => simp [retry_while_errno, List.take, ht e rfl]

theorem run_and_retry_while_ewouldblock_contract_witness :
    run_and_retry_while_ewouldblock [] ([Except.ok 5] : List (Outcome Nat))
      = some (Except.ok 5) ∧
    run_and_retry_while_ewouldblock [] ([Except.error EPERM] : List (Outcome Nat))
      = some (Except.error EPERM) ∧
    run_and_retry_while_ewouldblock [none, none]
      ([Except.error EWOULDBLOCK, Except.error EWOULDBLOCK, Except.error EINTR] :
        List (Outcome Nat))
      = some (Except.error EINTR) :=
  ⟨run_and_retry_while_ewouldblock_contract.1 Nat [] 5 [],
   run_and_retry_while_ewouldblock_contract.2.1 Nat [] EPERM [] (by decide),
   run_and_retry_while_ewouldblock_contract.2.2 Nat 1 (Except.error EINTR) []
     (by intro e he; cases he; decide)⟩

/-- C10: inside the retry loop of run_and_retry_while_ewouldblock, an
OSError with errno EWOULDBLOCK raised by wait itself is caught and the
wait-then-action pair restarts from the wait (the run is unchanged by
such a wait failure); an OSError from wait with any other errno
propagates to the caller. -/
theorem wait_ewouldblock_contract :
    (∀ (α : Type) (ws : List (Option Nat)) (rest : List (Outcome α)),
      run_and_retry_while_ewouldblock (some EWOULDBLOCK :: ws)
          (Except.error EWOULDBLOCK :: rest)
        = run_and_retry_while_ewouldblock ws (Except.error EWOULDBLOCK :: rest)) ∧
    (∀ (α : Type) (e : Nat) (ws : List (Option Nat)) (rest : List (Outcome α)),
      e ≠ EWOULDBLOCK →
      run_and_retry_while_ewouldblock (some e :: ws)
          (Except.error EWOULDBLOCK :: rest)
        = some (Except.error e)) := by
  constructor
  · intro α ws rest
    simp [run_and_retry_while_ewouldblock, wait_and_do, retry_while_errno]
  · intro α e ws rest he
    simp [run_and_retry_while_ewouldblock, wait_and_do, retry_while_errno, he]

theorem wait_ewouldblock_contract_witness :
    run_and_retry_while_ewouldblock [some EWOULDBLOCK, none]
        ([Except.error EWOULDBLOCK, Except.ok 3] : List (Outcome Nat))
      = some (Except.ok 3) ∧
    run_and_retry_while_ewouldblock [some EPERM]
        ([Except.error EWOULDBLOCK, Except.ok 3] : List (Outcome Nat))
      = some (Except.error EPERM) :=
  ⟨by rw [wait_ewouldblock_contract.1 Nat [none] [Except.ok 3]]; rfl,
   wait_ewouldblock_contract.2 Nat EPERM [] [Except.ok 3] (by decide)⟩

theorem actionRun_eintr_ok (N : Nat) (R : α) (rest : List (Outcome α)) :
    actionRun (List.replicate N (Except.error EINTR) ++ Except.ok R :: rest)
      = some (Except.ok R, rest, List.replicate (N + 1) Event.syscall) := by
  induction N with
  | zero => rfl
  | succ N ih =>
      rw [List.replicate_succ, List.cons_append]
      simp only [actionRun]
      rw [if_pos (show EINTR ∈ [EINTR] by decide), ih]
      rfl

/-- C4: when the raw binding raises EINTR on N consecutive invocations
and then returns a result, the adapter-level tee and splice return
exactly that result; the event trace is exactly N + 1 raw invocations,
with no registration and no suspension, so the wait step is never
invoked. -/
theorem adapter_eintr_transparent (fd_in fd_out N : Nat) (R : Int)
    (R2 : Int × Option Nat × Option Nat) (rest1 : List (Outcome Int))
    (rest2 : List (Outcome (Int × Option Nat × Option Nat))) :
    async_tee_run fd_in fd_out
        (List.replicate N (Except.error EINTR) ++ Except.ok R :: rest1)
      = (List.replicate (N + 1) Event.syscall, some (Except.ok R)) ∧
    async_splice_run fd_in fd_out
        (List.replicate N (Except.error EINTR) ++ Except.ok R2 :: rest2)
      = (List.replicate (N + 1) Event.syscall, some (Except.ok R2)) := by
  constructor <;>
    · show adapterRunF _ _ _ _ = _
      rw [adapterRunF, actionRun_eintr_ok]

theorem adapterRunF_wouldblock (fd_in fd_out fuel : Nat) (rest : List (Outcome α)) :
    adapterRunF fd_in fd_out (fuel + 1) (Except.error EWOULDBLOCK :: rest)
      = (Event.syscall :: (waitEvents fd_in fd_out ++ (adapterRunF fd_in fd_out fuel rest).1),
         (adapterRunF fd_in fd_out fuel rest).2) := rfl

/-- C5 fails on the code: the wait step is two sequential trampoline
calls, each of which registers one readiness condition and suspends.  In
the single would-block cycle of this concrete run the calling unit of
work suspends twice, not exactly once, and at the first suspension only
the read side of fd_in has been registered — the write side of fd_out is
registered only after it, so suspension is not restricted to the point
where both conditions are registered. -/
theorem wait_single_suspend_refuted :
    (async_tee_run 0 1 [Except.error EWOULDBLOCK, Except.ok 5]).1
      = [Event.syscall, Event.register_read 0, Event.suspend,
         Event.register_write 1, Event.suspend, Event.syscall] ∧
    ¬ ((async_tee_run 0 1 [Except.error EWOULDBLOCK, Except.ok 5]).1.count
        Event.suspend = 1) ∧
    (async_tee_run 0 1 [Except.error EWOULDBLOCK, Except.ok 5]).1.takeWhile
        (fun e => e != Event.suspend)
      = [Event.syscall, Event.register_read 0] := by decide

/-- C5 amended: in every would-block cycle of the adapter-level tee and
splice, the wait step runs to completion before the syscall is retried;
it registers the readability of fd_in and suspends on it, then registers
the writability of fd_out and suspends on it — two registrations and two
suspensions per cycle, one suspension per registration — and every event
of the rest of the run, the retrying syscall first, comes after both. -/
theorem adapter_wouldblock_cycle (fd_in fd_out : Nat)
    (rest1 : List (Outcome Int))
    (rest2 : List (Outcome (Int × Option Nat × Option Nat))) :
    waitEvents fd_in fd_out
      = [Event.register_read fd_in, Event.suspend,
         Event.register_write fd_out, Event.suspend] ∧
    async_tee_run fd_in fd_out (Except.error EWOULDBLOCK :: rest1)
      = (Event.syscall ::
          (waitEvents fd_in fd_out ++ (async_tee_run fd_in fd_out rest1).1),
         (async_tee_run fd_in fd_out rest1).2) ∧
    async_splice_run fd_in fd_out (Except.error EWOULDBLOCK :: rest2)
      = (Event.syscall ::
          (waitEvents fd_in fd_out ++ (async_splice_run fd_in fd_out rest2).1),
         (async_splice_run fd_in fd_out rest2).2) :=
  ⟨rfl, adapterRunF_wouldblock fd_in fd_out rest1.length rest1,
   adapterRunF_wouldblock fd_in fd_out rest2.length rest2⟩

/-- C3: the claim fails on the splice binding, a code bug.  For tee the
property does hold at these inputs: the OSError carries the errno and its
message exactly on a raw -1, and zero is passed through as success.  But
for splice, at the failing input — a raw return of 0, a success, with a
supplied input offset — the errcheck hook raises AttributeError instead
of returning the value as-is, because the off_in it reads back is the
ctypes.byref CArgObject, which has no contents attribute; so not every
non-(-1) return value of the raw bindings is returned unchanged. -/
theorem errcheck_passthrough_broken :
    tee_errcheck (fun _ => "msg") 0 11 = Except.ok 0 ∧
    tee_errcheck (fun _ => "msg") (-1) 11 = Except.error (PyErr.osError 11 "msg") ∧
    splice_errcheck (fun _ => "msg") (-1) 11 (some 7) none
      = Except.error (PyErr.osError 11 "msg") ∧
    splice_errcheck (fun _ => "msg") 0 11 (some 7) none
      = Except.error PyErr.attributeError := ⟨rfl, rfl, rfl, rfl⟩

/-- C6: the claim fails on the code, a code bug.  Evaluation at the
failing input: a splice call that supplies the input offset 5 and whose
raw call succeeds with 10 bytes does not return the triple with the
updated offset that the claim (and the Splice.__call__ docstring)
describe — the errcheck hook raises AttributeError, because the off_in
argument it reads is the ctypes.byref CArgObject, which has no contents
attribute. -/
theorem splice_offsets_attribute_error :
    Splice_call ⟨fun _ _ _ _ _ _ => (10, 0, 100, 200)⟩ (fun _ => "msg")
        (Fd.int 3) (some 5) (Fd.int 4) none 16 (TransferFlags.int 0)
      = Except.error PyErr.attributeError := rfl

/-- C7: the flags argument of both calls is accepted either as a raw
integer bitmask used directly, or as a collection of flag constants
folded with bitwise or starting from zero, so an empty collection
resolves to zero; and two flag arguments with equal resolved bitmask
yield the same converted c_uint argument, hence the same call results for
tee and splice against every kernel. -/
theorem flags_contract :
    resolveFlags (TransferFlags.set []) = 0 ∧
    (∀ l : List Nat, resolveFlags (TransferFlags.set l)
        = resolveFlags (TransferFlags.int (l.foldl (fun a b => a ||| b) 0))) ∧
    (∀ f g : TransferFlags, resolveFlags f = resolveFlags g →
      ∀ (k : KernelTee) (ks : KernelSplice) (strerror : Nat → String)
        (fd_in fd_out : Fd) (off_in off_out : Option Nat) (len_ : Nat),
        Tee_call k strerror fd_in fd_out len_ f
          = Tee_call k strerror fd_in fd_out len_ g ∧
        Splice_call ks strerror fd_in off_in fd_out off_out len_ f
          = Splice_call ks strerror fd_in off_in fd_out off_out len_ g) := by
  refine ⟨rfl, fun l => rfl, fun f g h k ks strerror fd_in fd_out off_in off_out len_ => ?_⟩
  unfold Tee_call Splice_call
  rw [h]
  exact ⟨rfl, rfl⟩

theorem flags_contract_witness :
    Tee_call ⟨fun _ _ _ d => (Int.ofNat d, 0)⟩ (fun _ => "msg") (Fd.int 0) (Fd.int 1) 8
        (TransferFlags.set [SPLICE_F_MOVE, SPLICE_F_MORE])
      = Tee_call ⟨fun _ _ _ d => (Int.ofNat d, 0)⟩ (fun _ => "msg") (Fd.int 0) (Fd.int 1) 8
        (TransferFlags.int 5) :=
  (flags_contract.2.2 (TransferFlags.set [SPLICE_F_MOVE, SPLICE_F_MORE])
    (TransferFlags.int 5) (by decide) ⟨fun _ _ _ d => (Int.ofNat d, 0)⟩
    ⟨fun _ _ _ _ _ _ => (0, 0, 0, 0)⟩ (fun _ => "msg")
    (Fd.int 0) (Fd.int 1) none none 8).1

/-- C8: set_pipe_size returns the size the kernel actually applied — the
request rounded up to the page granularity, a multiple of the page size
at least the request — and fails with errno EPERM when the request
exceeds the system-wide ceiling that read_pipe_max_size reads and the
caller lacks the privilege to override the ceiling. -/
theorem set_pipe_size_contract (k : PipeKernel) (fd size : Nat) (data : List Char)
    (hdata : read_pipe_max_size data = some k.ceiling) (hpage : 0 < k.pageSize) :
    (k.ceiling < size → k.privileged = false →
      set_pipe_size k size = Except.error EPERM) ∧
    (size ≤ k.ceiling ∨ k.privileged = true →
      set_pipe_size k size = Except.ok (roundUpTo k.pageSize size) ∧
      size ≤ roundUpTo k.pageSize size ∧
      roundUpTo k.pageSize size % k.pageSize = 0) := by
  constructor
  · intro hlt hpriv
    simp [set_pipe_size, fcntl_setpipe_sz, hlt, hpriv]
  · intro hok
    refine ⟨?_, ?_, Nat.mul_mod_left _ _⟩
    · rcases hok with hle | hpriv
      · simp [set_pipe_size, fcntl_setpipe_sz, Nat.not_lt.mpr hle]
      · simp [set_pipe_size, fcntl_setpipe_sz, hpriv]
    · unfold roundUpTo
      have hd := Nat.div_add_mod (size + k.pageSize - 1) k.pageSize
      have hr : (size + k.pageSize - 1) % k.pageSize < k.pageSize :=
        Nat.mod_lt _ hpage
      rw [Nat.mul_comm]
      generalize k.pageSize * ((size + k.pageSize - 1) / k.pageSize) = A at hd ⊢
      omega

theorem set_pipe_size_contract_witness :
    set_pipe_size ⟨4096, 1048576, false, 65536⟩ 1048577 = Except.error EPERM ∧
    set_pipe_size ⟨4096, 1048576, false, 65536⟩ 5000 = Except.ok 8192 :=
  ⟨(set_pipe_size_contract ⟨4096, 1048576, false, 65536⟩ 0 1048577
      ("1048576".toList) (by decide) (by decide)).1 (by decide) rfl,
   ((set_pipe_size_contract ⟨4096, 1048576, false, 65536⟩ 0 5000
      ("1048576".toList) (by decide) (by decide)).2 (Or.inl (by decide))).1⟩

/-- C9: make_non_blocking performs exactly one get of the status flags
followed by one set, the written value is the old value with O_NONBLOCK
set by bitwise or, every bit other than the O_NONBLOCK bit (bit 11) is
unchanged, and the operation is idempotent. -/
theorem make_non_blocking_contract (cur : Nat) :
    (make_non_blocking cur).2
      = [FcntlOp.getfl, FcntlOp.setfl ((make_non_blocking cur).1)] ∧
    (make_non_blocking cur).1 = cur ||| O_NONBLOCK ∧
    Nat.testBit (make_non_blocking cur).1 11 = true ∧
    (∀ i, i ≠ 11 → Nat.testBit (make_non_blocking cur).1 i = Nat.testBit cur i) ∧
    (make_non_blocking ((make_non_blocking cur).1)).1 = (make_non_blocking cur).1 := by
  have h2048 : O_NONBLOCK = 2 ^ 11 := rfl
  refine ⟨rfl, rfl, ?_, ?_, ?_⟩
  · show Nat.testBit (cur ||| O_NONBLOCK) 11 = true
    rw [Nat.testBit_lor, h2048, Nat.testBit_two_pow_self, Bool.or_true]
  · intro i hi
    show Nat.testBit (cur ||| O_NONBLOCK) i = Nat.testBit cur i
    rw [Nat.testBit_lor, h2048, Nat.testBit_two_pow_of_ne (fun h => hi h.symm),
      Bool.or_false]
  · show (cur ||| O_NONBLOCK) ||| O_NONBLOCK = cur ||| O_NONBLOCK
    rw [Nat.lor_assoc, Nat.or_self]

theorem make_non_blocking_contract_witness :
    Nat.testBit (make_non_blocking 2).1 1 = Nat.testBit 2 1 :=
  (make_non_blocking_contract 2).2.2.2.1 1 (by decide)
